import Mathlib

/-!
Shallow embedding of the go-cloud-utils library (Firebase auth middleware and
Cloudflare D1/KV/R2 clients) and proofs about its request/response handling.

Go strings are modelled as Lean strings; the byte-level operations of the Go
standard library (prefix tests, prefix trimming, MIME header canonicalization,
URL escaping) are embedded character-wise, which agrees with the Go code on
single-byte (ASCII) characters — the only characters these APIs are exercised
on here.
-/

/-- `strings.HasPrefix s pre` from the Go standard library. -/
def goHasPfx (s pre : String) : Bool :=
  pre.data.isPrefixOf s.data

/-- `strings.TrimPrefix s pre` from the Go standard library: drops `pre` from
the front of `s` when it is a prefix, otherwise returns `s` unchanged. -/
def goTrimPfx (s pre : String) : String :=
  if goHasPfx s pre then ⟨s.data.drop pre.data.length⟩ else s

/-! ## Firebase auth (src/firebase/auth.go) -/

/-- The verified-claims token returned by the external Firebase SDK
(`auth.Token`); only the `UID` field is inspected by this library. -/
structure AuthToken where
  uid : String
deriving DecidableEq, Repr

/-- The external SDK call `fa.Auth.VerifyIDToken`: an external collaborator,
modelled as an oracle from the raw token string to a verified token or an
error message. -/
def Verifier : Type := String → Except String AuthToken

/-- `FirebaseAuth.VerifyIDToken`: rejects the empty token, otherwise delegates
to the SDK verifier and wraps its error. -/
def VerifyIDToken (verify : Verifier) (idToken : String) : Except String AuthToken :=
  if idToken = "" then .error "id token is empty"
  else
    match verify idToken with
    | .error e => .error ("error verifying ID token: " ++ e)
    | .ok token => .ok token

/-- The unexported `contextKey` constants `tokenKey` and `uidKey`. -/
inductive ContextKey where
  | tokenKey
  | uidKey
deriving DecidableEq, Repr

/-- A value stored in a request context: the middleware stores the UID as a
string and the verified token; other ambient values are opaque. -/
inductive CtxVal where
  | str (s : String)
  | tok (t : AuthToken)
  | other
deriving DecidableEq, Repr

/-- A request-scoped context: `context.WithValue` chains, newest first. -/
def Ctx : Type := List (ContextKey × CtxVal)

/-- `context.WithValue`: wraps the context with one more key/value pair. -/
def ctxWithValue (ctx : Ctx) (k : ContextKey) (v : CtxVal) : Ctx :=
  (k, v) :: ctx

/-- `ctx.Value k`: innermost (most recently added) value for `k`, if any. -/
def ctxValue (ctx : Ctx) (k : ContextKey) : Option CtxVal :=
  match ctx.find? (fun p => p.1 = k) with
  | some p => some p.2
  | none => none

/-- `GetUIDFromContext`: the `uid` entry, required to hold a string. -/
def GetUIDFromContext (ctx : Ctx) : Except String String :=
  match ctxValue ctx .uidKey with
  | some (.str uid) => .ok uid
  | _ => .error "uid not found in context or not a string"

/-- `GetTokenFromContext`: the `token` entry, required to hold a token. -/
def GetTokenFromContext (ctx : Ctx) : Except String AuthToken :=
  match ctxValue ctx .tokenKey with
  | some (.tok t) => .ok t
  | _ => .error "token not found in context or not correct type"

/-- An incoming HTTP request: its header map and its context. `http.Header`
stores keys in canonical MIME form; `Get` returns `""` when absent. -/
structure Request where
  headers : List (String × String)
  ctx : Ctx

/-- `http.Header.Get`: first value for the key, `""` when the key is absent. -/
def headerGet (headers : List (String × String)) (k : String) : String :=
  match headers.find? (fun p => p.1 = k) with
  | some p => p.2
  | none => ""

/-- `GetTokenFromRequest`: requires the `Authorization` header to be present
and literally prefixed `"Bearer "`; returns the rest of the header. -/
def GetTokenFromRequest (r : Request) : Except String String :=
  let authHeader := headerGet r.headers "Authorization"
  if authHeader = "" then .error "authorization header is required"
  else if goHasPfx authHeader "Bearer " then .ok (goTrimPfx authHeader "Bearer ")
  else .error "authorization header must be in the format \x27Bearer \x7btoken\x7d\x27"

/-- What one pass of the middleware did: the error response written (if any)
and the list of requests handed to the wrapped downstream handler. -/
structure MwOutput where
  errorWritten : Option (Nat × String)
  nextCalls : List Request

/-- `AuthMiddleware`: extracts the bearer token, verifies it, and on success
calls the wrapped handler once with UID and token attached to the context; on
failure writes a 401 and never calls the handler. -/
def AuthMiddleware (verify : Verifier) (r : Request) : MwOutput :=
  match GetTokenFromRequest r with
  | .error e => { errorWritten := some (401, e), nextCalls := [] }
  | .ok idToken =>
    match VerifyIDToken verify idToken with
    | .error e => { errorWritten := some (401, "Invalid token: " ++ e), nextCalls := [] }
    | .ok token =>
      let ctx := ctxWithValue (ctxWithValue r.ctx .tokenKey (.tok token)) .uidKey (.str token.uid)
      { errorWritten := none, nextCalls := [{ r with ctx := ctx }] }

/-- `RequireAuth`: the `http.HandlerFunc` form of the same wrapper; its body
is the same extraction/verification/context logic as `AuthMiddleware`. -/
def RequireAuth (verify : Verifier) (r : Request) : MwOutput :=
  match GetTokenFromRequest r with
  | .error e => { errorWritten := some (401, e), nextCalls := [] }
  | .ok idToken =>
    match VerifyIDToken verify idToken with
    | .error e => { errorWritten := some (401, "Invalid token: " ++ e), nextCalls := [] }
    | .ok token =>
      let ctx := ctxWithValue (ctxWithValue r.ctx .tokenKey (.tok token)) .uidKey (.str token.uid)
      { errorWritten := none, nextCalls := [{ r with ctx := ctx }] }

/-! ## Cloudflare configuration and client constructors (src/unnamed/part_003,
src/unnamed/part_004, src/cloudflare/storage.go) -/

/-- `CloudflareConfig`: credentials and endpoint information shared by all
three clients. `time.Duration` is modelled as nanoseconds. -/
structure CloudflareConfig where
  APIToken : String
  AccountID : String
  BaseURL : String
  Timeout : Nat
deriving DecidableEq, Repr

/-- The default Cloudflare API base URL used throughout the source. -/
def defaultBaseURL : String := "https://api.cloudflare.com/client/v4"

/-- `NewConfig`: a config with the default base URL and a 30-second timeout. -/
def NewConfig (apiToken accountID : String) : CloudflareConfig :=
  { APIToken := apiToken, AccountID := accountID, BaseURL := defaultBaseURL,
    Timeout := 30 * 1000000000 }

/-- The `http.Client` built by `createHTTPClient`: only its timeout is set. -/
structure HTTPClient where
  timeout : Nat
deriving DecidableEq, Repr

/-- `createHTTPClient`: an HTTP client with the config's timeout. -/
def createHTTPClient (config : CloudflareConfig) : HTTPClient :=
  { timeout := config.Timeout }

structure D1Client where
  config : CloudflareConfig
  client : HTTPClient
deriving DecidableEq, Repr

structure R2Client where
  config : CloudflareConfig
  client : HTTPClient
deriving DecidableEq, Repr

structure KVClient where
  config : CloudflareConfig
  client : HTTPClient
deriving DecidableEq, Repr

/-- `NewD1Client` receives the shared config by pointer and assigns
`config.BaseURL` when it is empty; the first component of the result is the
state of the shared config after the call. -/
def NewD1Client (config : CloudflareConfig) : CloudflareConfig × D1Client :=
  let cfg := if config.BaseURL = "" then { config with BaseURL := defaultBaseURL } else config
  (cfg, { config := cfg, client := createHTTPClient cfg })

/-- `NewR2Client`: same empty-base-URL assignment on the shared config. -/
def NewR2Client (config : CloudflareConfig) : CloudflareConfig × R2Client :=
  let cfg := if config.BaseURL = "" then { config with BaseURL := defaultBaseURL } else config
  (cfg, { config := cfg, client := createHTTPClient cfg })

/-- `NewKVClient`: same empty-base-URL assignment on the shared config. -/
def NewKVClient (config : CloudflareConfig) : CloudflareConfig × KVClient :=
  let cfg := if config.BaseURL = "" then { config with BaseURL := defaultBaseURL } else config
  (cfg, { config := cfg, client := createHTTPClient cfg })

structure Storage where
  D1 : D1Client
  R2 : R2Client
  KV : KVClient
deriving DecidableEq, Repr

/-- `NewStorage`: initializes all three clients on the same shared config
pointer, threading the (possibly mutated) config through each constructor. -/
def NewStorage (config : CloudflareConfig) : CloudflareConfig × Storage :=
  let (c1, d1) := NewD1Client config
  let (c2, r2) := NewR2Client c1
  let (c3, kv) := NewKVClient c2
  (c3, { D1 := d1, R2 := r2, KV := kv })

/-- The process environment as seen through `os.Getenv`: `""` when unset. -/
def Env : Type := String → String

/-- `NewStorageFromEnv` (package `cloudflare`, src/cloudflare/storage.go):
builds the config from the `CLOUDFLARE_API_TOKEN` and `CLOUDFLARE_ACCOUNT_ID`
environment variables; `Timeout` is left at its zero value. -/
def NewStorageFromEnv (env : Env) : CloudflareConfig × Storage :=
  let config : CloudflareConfig :=
    { APIToken := env "CLOUDFLARE_API_TOKEN",
      AccountID := env "CLOUDFLARE_ACCOUNT_ID",
      BaseURL := defaultBaseURL,
      Timeout := 0 }
  NewStorage config

/-! ## URL escaping (`net/url`: `PathEscape`, `QueryEscape`) -/

/-- The two escaping modes of `net/url.escape` used by this library. -/
inductive EncMode where
  | pathSegment
  | queryComponent
deriving DecidableEq, Repr

/-- `net/url.shouldEscape` restricted to the two modes in use: alphanumerics
and `-`, `_`, `.`, `~` are never escaped; of the RFC 3986 reserved characters
`$ & + , / : ; = ? @`, a path segment escapes `/ ; , ?` and a query component
escapes all; every other byte is escaped. -/
def shouldEscape (mode : EncMode) (c : Char) : Bool :=
  let n := c.toNat
  if (48 ≤ n && n ≤ 57) || (65 ≤ n && n ≤ 90) || (97 ≤ n && n ≤ 122) then false
  else if n == 45 || n == 95 || n == 46 || n == 126 then false
  else if n == 36 || n == 38 || n == 43 || n == 44 || n == 47 || n == 58 ||
          n == 59 || n == 61 || n == 63 || n == 64 then
    match mode with
    | .pathSegment => n == 47 || n == 59 || n == 44 || n == 63
    | .queryComponent => true
  else true

/-- Upper-case hexadecimal digit, for percent-escapes. -/
def hexDigitUpper (n : Nat) : Char :=
  "0123456789ABCDEF".data.getD n (Char.ofNat 88)

/-- One character of `net/url.escape`: space becomes `+` in a query
component; an escaped byte becomes `%XX`; everything else is copied. -/
def escapeChar (mode : EncMode) (c : Char) : List Char :=
  if mode = .queryComponent && c.toNat == 32 then [Char.ofNat 43]
  else if shouldEscape mode c then
    [Char.ofNat 37, hexDigitUpper (c.toNat / 16), hexDigitUpper (c.toNat % 16)]
  else [c]

/-- `net/url.escape`. -/
def urlEscape (mode : EncMode) (s : String) : String :=
  ⟨s.data.flatMap (escapeChar mode)⟩

/-- `url.PathEscape`. -/
def pathEscape (s : String) : String := urlEscape .pathSegment s

/-- `url.QueryEscape`. -/
def queryEscape (s : String) : String := urlEscape .queryComponent s

/-! ## KV URL construction (src/unnamed/part_004) -/

/-- `ListKeys` URL: the namespace ID is interpolated verbatim; a non-empty
list prefix is appended as a query-escaped `?prefix=` parameter. -/
def ListKeysURL (cfg : CloudflareConfig) (namespaceID pfx : String) : String :=
  let urlPath := cfg.BaseURL ++ "/accounts/" ++ cfg.AccountID ++
    "/storage/kv/namespaces/" ++ namespaceID ++ "/keys"
  if pfx = "" then urlPath else urlPath ++ "?prefix=" ++ queryEscape pfx

/-- `WriteValue` URL: namespace verbatim, key path-escaped, optional
`?expiration_ttl=` parameter. -/
def WriteValueURL (cfg : CloudflareConfig) (namespaceID key : String)
    (expiration : Option Int) : String :=
  let urlPath := cfg.BaseURL ++ "/accounts/" ++ cfg.AccountID ++
    "/storage/kv/namespaces/" ++ namespaceID ++ "/values/" ++ pathEscape key
  match expiration with
  | some ttl => urlPath ++ "?expiration_ttl=" ++ toString ttl
  | none => urlPath

/-- `ReadValue` URL: namespace verbatim, key path-escaped. -/
def ReadValueURL (cfg : CloudflareConfig) (namespaceID key : String) : String :=
  cfg.BaseURL ++ "/accounts/" ++ cfg.AccountID ++
    "/storage/kv/namespaces/" ++ namespaceID ++ "/values/" ++ pathEscape key

/-- `DeleteValue` URL: namespace verbatim, key path-escaped. -/
def DeleteValueURL (cfg : CloudflareConfig) (namespaceID key : String) : String :=
  cfg.BaseURL ++ "/accounts/" ++ cfg.AccountID ++
    "/storage/kv/namespaces/" ++ namespaceID ++ "/values/" ++ pathEscape key

/-- Modelled from the spec's words, for comparison with the source: `ListKeys`
URL with the namespace segment URL-escaped individually. -/
def ListKeysURLSpec (cfg : CloudflareConfig) (namespaceID pfx : String) : String :=
  let urlPath := cfg.BaseURL ++ "/accounts/" ++ cfg.AccountID ++
    "/storage/kv/namespaces/" ++ pathEscape namespaceID ++ "/keys"
  if pfx = "" then urlPath else urlPath ++ "?prefix=" ++ queryEscape pfx

/-- Modelled from the spec's words: `WriteValue` URL with both the namespace
and the key segment URL-escaped individually. -/
def WriteValueURLSpec (cfg : CloudflareConfig) (namespaceID key : String)
    (expiration : Option Int) : String :=
  let urlPath := cfg.BaseURL ++ "/accounts/" ++ cfg.AccountID ++
    "/storage/kv/namespaces/" ++ pathEscape namespaceID ++ "/values/" ++ pathEscape key
  match expiration with
  | some ttl => urlPath ++ "?expiration_ttl=" ++ toString ttl
  | none => urlPath

/-- Modelled from the spec's words: `ReadValue` URL with both segments
URL-escaped individually. -/
def ReadValueURLSpec (cfg : CloudflareConfig) (namespaceID key : String) : String :=
  cfg.BaseURL ++ "/accounts/" ++ cfg.AccountID ++
    "/storage/kv/namespaces/" ++ pathEscape namespaceID ++ "/values/" ++ pathEscape key

/-- Modelled from the spec's words: `DeleteValue` URL with both segments
URL-escaped individually. -/
def DeleteValueURLSpec (cfg : CloudflareConfig) (namespaceID key : String) : String :=
  cfg.BaseURL ++ "/accounts/" ++ cfg.AccountID ++
    "/storage/kv/namespaces/" ++ pathEscape namespaceID ++ "/values/" ++ pathEscape key

/-! ## MIME header canonicalization (`net/textproto`) and R2 metadata
round-trip (src/cloudflare/storage.go) -/

/-- `net/textproto.validHeaderFieldByte`: letters, digits and the token
characters of RFC 7230 (`! # $ % & apostrophe * + - . ^ _ backquote | ~`). -/
def validHeaderFieldChar (c : Char) : Bool :=
  let n := c.toNat
  (48 ≤ n && n ≤ 57) || (65 ≤ n && n ≤ 90) || (97 ≤ n && n ≤ 122) ||
  n == 33 || n == 35 || n == 36 || n == 37 || n == 38 || n == 39 ||
  n == 42 || n == 43 || n == 45 || n == 46 || n == 94 || n == 95 ||
  n == 96 || n == 124 || n == 126

/-- Upper-case an ASCII lower-case letter, leave anything else unchanged. -/
def toUpperAscii (c : Char) : Char :=
  if 97 ≤ c.toNat && c.toNat ≤ 122 then Char.ofNat (c.toNat - 32) else c

/-- Lower-case an ASCII upper-case letter, leave anything else unchanged. -/
def toLowerAscii (c : Char) : Char :=
  if 65 ≤ c.toNat && c.toNat ≤ 90 then Char.ofNat (c.toNat + 32) else c

/-- The canonicalization loop of `textproto.canonicalMIMEHeaderKey`: upper-case
the first character and every character following a hyphen, lower-case the
rest. -/
def canonChars : Bool → List Char → List Char
  | _, [] => []
  | upper, c :: rest =>
    let c2 := if upper then toUpperAscii c else toLowerAscii c
    c2 :: canonChars (c2 = Char.ofNat 45) rest

/-- `textproto.CanonicalMIMEHeaderKey`: returns the argument unchanged when it
contains any invalid header-field byte, otherwise canonicalizes case. -/
def CanonicalMIMEHeaderKey (s : String) : String :=
  if s.data.all validHeaderFieldChar then ⟨canonChars true s.data⟩ else s

/-- `textproto.MIMEHeader.Add` on a header map (modelled as an association
list with unique keys): the value is appended to the slice stored under the
canonical MIME form of the key, merging with an existing entry when one is
already stored under that canonical key. -/
def headerAdd (hs : List (String × List String)) (k v : String) : List (String × List String) :=
  if hs.any (fun p => p.1 = CanonicalMIMEHeaderKey k) then
    hs.map (fun p => if p.1 = CanonicalMIMEHeaderKey k then (p.1, p.2 ++ [v]) else p)
  else hs ++ [(CanonicalMIMEHeaderKey k, [v])]

/-- `UploadObject`'s metadata loop: one `http.Header.Add` per entry with the
key prefixed `X-Metadata-`; entries whose prefixed keys share a canonical MIME
form are merged into one header holding both values. -/
def uploadMetadataHeaders (metadata : List (String × String)) : List (String × List String) :=
  metadata.foldl (fun hs kv => headerAdd hs ("X-Metadata-" ++ kv.1) kv.2) []

/-- An R2 backend that echoes the stored metadata header map back on
`GetObject`, values unchanged; the response header map the Go client sees
again stores keys in canonical MIME form. -/
def echoHeaders (requestHeaders : List (String × List String)) : List (String × List String) :=
  requestHeaders.map (fun p => (CanonicalMIMEHeaderKey p.1, p.2))

/-- `GetObject`'s metadata extraction: every response header whose key is
prefixed `X-Metadata-` becomes one entry, the prefix trimmed, the first header
value taken. -/
def extractMetadata (responseHeaders : List (String × List String)) : List (String × String) :=
  (responseHeaders.filter (fun kv => goHasPfx kv.1 "X-Metadata-")).map
    (fun kv => (goTrimPfx kv.1 "X-Metadata-", kv.2.headD ""))

/-- The metadata round trip of the spec: upload with metadata, fetch the same
object from a faithfully echoing backend, extract the metadata map. -/
def metadataRoundTrip (metadata : List (String × String)) : List (String × String) :=
  extractMetadata (echoHeaders (uploadMetadataHeaders metadata))

/-! ## D1 query execution (src/unnamed/part_003) -/

/-- A JSON value, for query parameters and row values. -/
inductive JsonVal where
  | null
  | bool (b : Bool)
  | num (q : Rat)
  | str (s : String)
  | arr (xs : List JsonVal)
  | obj (fields : List (String × JsonVal))

/-- The `meta` block of a `D1ResponseItem`; the floating-point durations are
modelled as rationals. -/
structure D1Meta where
  changedDB : Bool
  changes : Int
  duration : Rat
  lastRowID : Int
  rowsRead : Int
  rowsWritten : Int
  servedByPrimary : Bool
  servedByRegion : String
  sizeAfter : Int
  sqlDurationMS : Rat

/-- `D1ResponseItem`: one item of the response's `result` array. -/
structure D1ResponseItem where
  meta : D1Meta
  results : List (List (String × JsonVal))
  success : Bool

/-- `D1Error`: one server-reported error object. -/
structure D1ErrorObj where
  code : Int
  message : String
  documentationURL : String
  sourcePointer : String

/-- `D1Response`: the full JSON envelope of the D1 query endpoint. -/
structure D1Response where
  errors : List D1ErrorObj
  messages : List D1ErrorObj
  result : List D1ResponseItem
  success : Bool

/-- The failure modes of `ExecuteQuery`, one constructor per distinct
return point in the source, carrying the data its error message carries. -/
inductive D1Err where
  | transport (msg : String)
  | unexpectedStatus (code : Nat) (body : String)
  | decode (msg : String)
  | apiError (msg : String)
  | emptyResult

/-- The POST body `{sql, params?}` built by `ExecuteQuery`: json-marshalled
with `omitempty`, so the `params` field is present exactly when the parameter
slice is non-nil and non-empty. -/
def d1RequestBody (sql : String) (params : List JsonVal) : List (String × JsonVal) :=
  if params.length > 0 then [("sql", .str sql), ("params", .arr params)]
  else [("sql", .str sql)]

/-- The HTTP response to a D1 query as the client observes it: status code,
raw body text (read for error reporting), and the result of decoding the body
as a `D1Response` (`none` models a JSON decode failure). -/
structure D1HTTPResp where
  status : Nat
  body : String
  decoded : Option D1Response

/-- The error message built for a `success=false` envelope: the first
server-reported error message is appended when present. -/
def d1FailureMsg (errors : List D1ErrorObj) : String :=
  match errors with
  | [] => "request was not successful"
  | e :: _ => "request was not successful" ++ ": " ++ e.message

/-- The response handling of `ExecuteQuery`: non-200 fails with the status and
body; a decode failure fails; `success=false` fails with the first reported
message; an empty `result` array fails; otherwise the first item is
returned. -/
def d1HandleResponse (resp : D1HTTPResp) : Except D1Err D1ResponseItem :=
  if resp.status ≠ 200 then .error (.unexpectedStatus resp.status resp.body)
  else
    match resp.decoded with
    | none => .error (.decode "error decoding response")
    | some response =>
      if !response.success then .error (.apiError (d1FailureMsg response.errors))
      else
        match response.result with
        | [] => .error .emptyResult
        | item :: _ => .ok item

/-- `ExecuteQuery`: builds the request body, sends it through the transport
(an oracle from the request body to a transport failure or a response), and
handles the response. -/
def ExecuteQuery (sql : String) (params : List JsonVal)
    (transport : List (String × JsonVal) → Except String D1HTTPResp) :
    Except D1Err D1ResponseItem :=
  match transport (d1RequestBody sql params) with
  | .error e => .error (.transport ("error making request: " ++ e))
  | .ok resp => d1HandleResponse resp

/-! ## KV operations (src/unnamed/part_004) -/

/-- The failure modes of `ReadValue`, one constructor per distinct return
point in the source. -/
inductive KVReadErr where
  | transport (msg : String)
  | notFound (key : String)
  | unexpectedStatus (code : Nat)
  | readBody (msg : String)
deriving DecidableEq, Repr

deriving instance DecidableEq for Except

/-- The HTTP response to a KV read: status code and the outcome of
`io.ReadAll` on the body (bytes, or a read error). -/
structure KVReadResp where
  status : Nat
  bodyRead : Except String (List Nat)
deriving DecidableEq, Repr

/-- The response handling of `ReadValue`: a transport failure is reported as
such; 404 is the distinct not-found failure carrying the key; any other
non-200 status is the generic unexpected-status failure; otherwise the raw
body bytes are returned. -/
def ReadValue (key : String) (transport : Except String KVReadResp) :
    Except KVReadErr (List Nat) :=
  match transport with
  | .error e => .error (.transport ("error making request: " ++ e))
  | .ok resp =>
    if resp.status = 404 then .error (.notFound ("key not found: " ++ key))
    else if resp.status ≠ 200 then .error (.unexpectedStatus resp.status)
    else
      match resp.bodyRead with
      | .error e => .error (.readBody ("error reading response body: " ++ e))
      | .ok bytes => .ok bytes

/-- The failure modes of the KV mutating operations (`WriteValue`,
`DeleteValue`). -/
inductive KVMutErr where
  | transport (msg : String)
  | unexpectedStatus (code : Nat)
  | decode (msg : String)
  | apiNotSuccessful
deriving DecidableEq, Repr

/-- The decoded `{success}` JSON envelope of the KV mutating endpoints. -/
structure SuccessEnvelope where
  success : Bool
deriving DecidableEq, Repr

/-- The HTTP response to a KV mutating call: status code and the decoded
envelope (`none` models a JSON decode failure). -/
structure EnvelopeResp where
  status : Nat
  decoded : Option SuccessEnvelope
deriving DecidableEq, Repr

/-- The response handling shared verbatim by `WriteValue` and `DeleteValue`:
requires status 200, then decodes the envelope and requires `success:true`. -/
def kvMutHandleResponse (resp : EnvelopeResp) : Except KVMutErr Unit :=
  if resp.status ≠ 200 then .error (.unexpectedStatus resp.status)
  else
    match resp.decoded with
    | none => .error (.decode "error decoding response")
    | some envelope =>
      if !envelope.success then .error .apiNotSuccessful
      else .ok ()

/-- `WriteValue`'s handling of a completed HTTP exchange. -/
def WriteValue (transport : Except String EnvelopeResp) : Except KVMutErr Unit :=
  match transport with
  | .error e => .error (.transport ("error making request: " ++ e))
  | .ok resp => kvMutHandleResponse resp

/-- `DeleteValue`'s handling of a completed HTTP exchange — identical to
`WriteValue`'s. -/
def DeleteValue (transport : Except String EnvelopeResp) : Except KVMutErr Unit :=
  match transport with
  | .error e => .error (.transport ("error making request: " ++ e))
  | .ok resp => kvMutHandleResponse resp

/-! ## R2 DeleteObject (src/cloudflare/storage.go) -/

/-- The failure modes of `DeleteObject`. -/
inductive R2DeleteErr where
  | transport (msg : String)
  | unexpectedStatus (code : Nat)
deriving DecidableEq, Repr

/-- `DeleteObject`'s handling of a completed HTTP exchange: status 200 is the
only success; the response body is never decoded, so the envelope carried by
the response is ignored entirely. -/
def DeleteObject (transport : Except String EnvelopeResp) : Except R2DeleteErr Unit :=
  match transport with
  | .error e => .error (.transport ("error making request: " ++ e))
  | .ok resp =>
    if resp.status ≠ 200 then .error (.unexpectedStatus resp.status)
    else .ok ()

/-! ## Concrete values used in witnesses -/

/-- A verifier that accepts exactly the token `"valid-token"`. -/
def exampleVerifier : Verifier := fun s =>
  if s = "valid-token" then .ok { uid := "user-1" } else .error "invalid token"

/-- An environment with no variables set. -/
def envNone : Env := fun _ => ""

/-- An environment that sets only `CLOUDFLARE_API_TOKEN`. -/
def envToken : Env := fun s => if s = "CLOUDFLARE_API_TOKEN" then "tok" else ""

/-- An environment that sets only an unrelated variable. -/
def envOther : Env := fun s => if s = "OTHER_VAR" then "x" else ""

def exampleMeta : D1Meta :=
  { changedDB := false, changes := 0, duration := 0, lastRowID := 0, rowsRead := 0,
    rowsWritten := 0, servedByPrimary := false, servedByRegion := "", sizeAfter := 0,
    sqlDurationMS := 0 }

def exampleItem : D1ResponseItem :=
  { meta := exampleMeta, results := [], success := true }

/-- A successful envelope with an empty result array. -/
def d1EnvelopeEmpty : D1Response :=
  { errors := [], messages := [], result := [], success := true }

/-- A successful envelope with one result item. -/
def d1EnvelopeOne : D1Response :=
  { errors := [], messages := [], result := [exampleItem], success := true }

def d1RespEmpty : D1HTTPResp := { status := 200, body := "", decoded := some d1EnvelopeEmpty }

def d1RespOne : D1HTTPResp := { status := 200, body := "", decoded := some d1EnvelopeOne }

def exampleD1ErrorObj : D1ErrorObj :=
  { code := 7500, message := "bad sql", documentationURL := "", sourcePointer := "" }

def d1Resp500 : D1HTTPResp := { status := 500, body := "oops", decoded := none }

/-- A 200 response whose envelope reports `success:false` with one error. -/
def d1RespFail : D1HTTPResp :=
  { status := 200, body := "",
    decoded := some { errors := [exampleD1ErrorObj], messages := [], result := [],
                      success := false } }

/-- The canonicalization state after processing a chunk of characters: `true`
when the next character starts a new hyphen-separated word. -/
def canonState (u : Bool) : List Char → Bool
  | [] => u
  | c :: rest => canonState ((if u then toUpperAscii c else toLowerAscii c) = Char.ofNat 45) rest

/-! ## Helper lemmas -/

theorem charOfNat_toNat (n : Nat) (h : n < 55296) : (Char.ofNat n).toNat = n := by
  unfold Char.ofNat
  simp [Nat.isValidChar, h, Char.ofNatAux, Char.toNat, UInt32.toNat, BitVec.toNat_ofNatLt]

lemma toUpperAscii_idem (c : Char) : toUpperAscii (toUpperAscii c) = toUpperAscii c := by
  unfold toUpperAscii
  by_cases h97 : 97 ≤ c.toNat <;> by_cases h122 : c.toNat ≤ 122 <;>
    simp [h97, h122]
  have ht : (Char.ofNat (c.toNat - 32)).toNat = c.toNat - 32 := charOfNat_toNat _ (by omega)
  intro h1 _
  rw [ht] at h1
  exact absurd h1 (by omega)

lemma toLowerAscii_idem (c : Char) : toLowerAscii (toLowerAscii c) = toLowerAscii c := by
  unfold toLowerAscii
  by_cases h65 : 65 ≤ c.toNat <;> by_cases h90 : c.toNat ≤ 90 <;>
    simp [h65, h90]
  have ht : (Char.ofNat (c.toNat + 32)).toNat = c.toNat + 32 := charOfNat_toNat _ (by omega)
  intro h1 _
  rw [ht] at h1
  exact absurd h1 (by omega)

lemma validHeaderFieldChar_toUpperAscii (c : Char) (h : validHeaderFieldChar c = true) :
    validHeaderFieldChar (toUpperAscii c) = true := by
  unfold toUpperAscii
  by_cases h97 : 97 ≤ c.toNat <;> by_cases h122 : c.toNat ≤ 122 <;> simp [h97, h122, h]
  have ht := charOfNat_toNat (c.toNat - 32) (by omega)
  unfold validHeaderFieldChar at h ⊢
  simp [ht] at h ⊢
  omega

lemma validHeaderFieldChar_toLowerAscii (c : Char) (h : validHeaderFieldChar c = true) :
    validHeaderFieldChar (toLowerAscii c) = true := by
  unfold toLowerAscii
  by_cases h65 : 65 ≤ c.toNat <;> by_cases h90 : c.toNat ≤ 90 <;> simp [h65, h90, h]
  have ht := charOfNat_toNat (c.toNat + 32) (by omega)
  unfold validHeaderFieldChar at h ⊢
  simp [ht] at h ⊢
  omega

lemma canonChars_append (xs ys : List Char) (u : Bool) :
    canonChars u (xs ++ ys) = canonChars u xs ++ canonChars (canonState u xs) ys := by
  induction xs generalizing u with
  | nil => simp [canonChars, canonState]
  | cons c rest ih => simp [canonChars, canonState, ih]

lemma canonChars_idem (xs : List Char) (u : Bool) :
    canonChars u (canonChars u xs) = canonChars u xs := by
  induction xs generalizing u with
  | nil => rfl
  | cons c rest ih =>
    cases u with
    | true => simp [canonChars, toUpperAscii_idem, ih]
    | false => simp [canonChars, toLowerAscii_idem, ih]

lemma canonChars_all_valid (xs : List Char) (u : Bool)
    (h : xs.all validHeaderFieldChar = true) :
    (canonChars u xs).all validHeaderFieldChar = true := by
  induction xs generalizing u with
  | nil => rfl
  | cons c rest ih =>
    simp only [List.all_cons, Bool.and_eq_true] at h
    cases u with
    | true =>
      simp only [canonChars, List.all_cons, Bool.and_eq_true]
      exact ⟨validHeaderFieldChar_toUpperAscii c h.1, ih _ h.2⟩
    | false =>
      simp only [canonChars, List.all_cons, Bool.and_eq_true]
      exact ⟨validHeaderFieldChar_toLowerAscii c h.1, ih _ h.2⟩

lemma canonicalMIME_append_pfx (k : String) (h : k.data.all validHeaderFieldChar = true) :
    CanonicalMIMEHeaderKey ("X-Metadata-" ++ k) = "X-Metadata-" ++ ⟨canonChars true k.data⟩ := by
  have hall : ("X-Metadata-" ++ k).data.all validHeaderFieldChar = true := by
    rw [String.data_append, List.all_append]
    simp only [h, Bool.and_true]
    decide
  unfold CanonicalMIMEHeaderKey
  rw [if_pos hall]
  apply String.ext
  rw [String.data_append, String.data_append, canonChars_append]
  congr 1

lemma canonicalMIME_idem (s : String) :
    CanonicalMIMEHeaderKey (CanonicalMIMEHeaderKey s) = CanonicalMIMEHeaderKey s := by
  unfold CanonicalMIMEHeaderKey
  by_cases h : s.data.all validHeaderFieldChar = true
  · rw [if_pos h]
    have h2 : (String.mk (canonChars true s.data)).data.all validHeaderFieldChar = true :=
      canonChars_all_valid _ _ h
    rw [if_pos h2]
    exact congrArg String.mk (canonChars_idem _ _)
  · rw [if_neg h, if_neg h]

lemma hexDigitUpper_mem (n : Nat) : hexDigitUpper n ∈ "0123456789ABCDEFX".data := by
  unfold hexDigitUpper
  rcases Nat.lt_or_ge n 16 with h | h
  · interval_cases n <;> decide
  · have hl : ("0123456789ABCDEF".data).length ≤ n := by
      have h16 : ("0123456789ABCDEF".data).length = 16 := rfl
      omega
    rw [List.getD_eq_getElem?_getD, List.getElem?_eq_none hl]
    decide

lemma not_mem_urlEscape (m : EncMode) (bad : Char)
    (hesc : shouldEscape m bad = true)
    (h37 : bad ≠ Char.ofNat 37) (h43 : bad ≠ Char.ofNat 43)
    (hhex : bad ∉ "0123456789ABCDEFX".data) (s : String) :
    bad ∉ (urlEscape m s).data := by
  intro hmem
  rw [urlEscape] at hmem
  rw [show (String.mk (s.data.flatMap (escapeChar m))).data = s.data.flatMap (escapeChar m) from rfl,
    List.mem_flatMap] at hmem
  obtain ⟨c, _, hmem⟩ := hmem
  unfold escapeChar at hmem
  by_cases h1 : (decide (m = EncMode.queryComponent) && (c.toNat == 32)) = true
  · rw [if_pos h1] at hmem
    simp only [List.mem_singleton] at hmem
    exact h43 hmem
  · rw [if_neg h1] at hmem
    by_cases h2 : shouldEscape m c = true
    · rw [if_pos h2] at hmem
      simp only [List.mem_cons, List.not_mem_nil, or_false] at hmem
      rcases hmem with h | h | h
      · exact h37 h
      · exact hhex (h ▸ hexDigitUpper_mem _)
      · exact hhex (h ▸ hexDigitUpper_mem _)
    · rw [if_neg h2] at hmem
      simp only [List.mem_singleton] at hmem
      subst hmem
      exact h2 hesc

lemma headerAdd_not_mem (hs : List (String × List String)) (k v : String)
    (h : CanonicalMIMEHeaderKey k ∉ hs.map Prod.fst) :
    headerAdd hs k v = hs ++ [(CanonicalMIMEHeaderKey k, [v])] := by
  have hany : hs.any (fun p => p.1 = CanonicalMIMEHeaderKey k) = false := by
    simp only [List.any_eq_false, decide_eq_true_eq]
    intro p hp hpe
    exact h (hpe ▸ List.mem_map_of_mem Prod.fst hp)
  simp [headerAdd, hany]

lemma uploadFold (md : List (String × String)) (hs : List (String × List String))
    (hdisj : ∀ kv ∈ md, CanonicalMIMEHeaderKey ("X-Metadata-" ++ kv.1) ∉ hs.map Prod.fst)
    (hnodup : (md.map (fun kv => CanonicalMIMEHeaderKey ("X-Metadata-" ++ kv.1))).Nodup) :
    md.foldl (fun hs2 kv => headerAdd hs2 ("X-Metadata-" ++ kv.1) kv.2) hs =
      hs ++ md.map (fun kv => (CanonicalMIMEHeaderKey ("X-Metadata-" ++ kv.1), [kv.2])) := by
  induction md generalizing hs with
  | nil => simp
  | cons kv rest ih =>
    obtain ⟨k, v⟩ := kv
    simp only [List.map_cons, List.nodup_cons] at hnodup
    have hck : CanonicalMIMEHeaderKey ("X-Metadata-" ++ k) ∉ hs.map Prod.fst :=
      hdisj (k, v) (List.mem_cons_self _ _)
    rw [List.foldl_cons, headerAdd_not_mem hs _ v hck,
      ih (hs ++ [(CanonicalMIMEHeaderKey ("X-Metadata-" ++ k), [v])]) ?hd hnodup.2]
    · simp
    case hd =>
      intro kv2 hkv2
      intro hmem
      rw [List.map_append, List.mem_append] at hmem
      rcases hmem with hmem | hmem
      · exact hdisj kv2 (List.mem_cons_of_mem _ hkv2) hmem
      · simp only [List.map_cons, List.map_nil, List.mem_singleton] at hmem
        exact hnodup.1 (hmem ▸ List.mem_map_of_mem _ hkv2)

lemma extract_of_canonical (md : List (String × String))
    (hvalid : ∀ kv ∈ md, kv.1.data.all validHeaderFieldChar = true) :
    extractMetadata (echoHeaders (md.map (fun kv =>
        (CanonicalMIMEHeaderKey ("X-Metadata-" ++ kv.1), [kv.2])))) =
      md.map (fun kv => (CanonicalMIMEHeaderKey kv.1, kv.2)) := by
  induction md with
  | nil => rfl
  | cons kv rest ih =>
    obtain ⟨k, v⟩ := kv
    have hk : k.data.all validHeaderFieldChar = true := hvalid (k, v) (by simp)
    have hrest : ∀ kv ∈ rest, kv.1.data.all validHeaderFieldChar = true :=
      fun kv hkv => hvalid kv (by simp [hkv])
    have h1 : CanonicalMIMEHeaderKey ("X-Metadata-" ++ k) =
        "X-Metadata-" ++ ⟨canonChars true k.data⟩ := canonicalMIME_append_pfx k hk
    have h2 : CanonicalMIMEHeaderKey ("X-Metadata-" ++ (⟨canonChars true k.data⟩ : String)) =
        "X-Metadata-" ++ ⟨canonChars true k.data⟩ := by
      rw [← h1, canonicalMIME_idem, h1]
    have hpfx : goHasPfx ("X-Metadata-" ++ (⟨canonChars true k.data⟩ : String))
        "X-Metadata-" = true := by
      simp only [goHasPfx, String.data_append]
      rw [List.isPrefixOf_iff_prefix]
      exact List.prefix_append _ _
    have htrim : goTrimPfx ("X-Metadata-" ++ (⟨canonChars true k.data⟩ : String))
        "X-Metadata-" = ⟨canonChars true k.data⟩ := by
      simp only [goTrimPfx, hpfx, if_true]
      apply String.ext
      simp only [String.data_append]
      exact List.drop_left _ _
    have hcanon : CanonicalMIMEHeaderKey k = ⟨canonChars true k.data⟩ := by
      unfold CanonicalMIMEHeaderKey
      rw [if_pos hk]
    have ihr := ih hrest
    simp only [echoHeaders, extractMetadata, List.map_cons, List.filter_cons, h1, h2, hpfx,
      htrim, hcanon, if_true] at ihr ⊢
    rw [ihr]
    rfl

/-! ## Claim theorems -/

/-- C1: for every request handled by `AuthMiddleware` or `RequireAuth`, a
bearer-token extraction failure or a verification failure yields a 401
response and the wrapped handler is never invoked; on success the wrapped
handler is invoked exactly once, with the verified UID and token retrievable
from the request-scoped context. -/
theorem C1_auth_wrapper (verify : Verifier) (r : Request) :
    (∀ e, GetTokenFromRequest r = .error e →
      AuthMiddleware verify r = { errorWritten := some (401, e), nextCalls := [] } ∧
      RequireAuth verify r = { errorWritten := some (401, e), nextCalls := [] }) ∧
    (∀ tk e, GetTokenFromRequest r = .ok tk → VerifyIDToken verify tk = .error e →
      AuthMiddleware verify r =
        { errorWritten := some (401, "Invalid token: " ++ e), nextCalls := [] } ∧
      RequireAuth verify r =
        { errorWritten := some (401, "Invalid token: " ++ e), nextCalls := [] }) ∧
    (∀ tk token, GetTokenFromRequest r = .ok tk → VerifyIDToken verify tk = .ok token →
      ∃ r2, AuthMiddleware verify r = { errorWritten := none, nextCalls := [r2] } ∧
        RequireAuth verify r = { errorWritten := none, nextCalls := [r2] } ∧
        GetUIDFromContext r2.ctx = .ok token.uid ∧
        GetTokenFromContext r2.ctx = .ok token ∧
        r2.headers = r.headers) := by
  refine ⟨fun e he => ?_, fun tk e htk he => ?_, fun tk token htk hv => ?_⟩
  · constructor <;> simp [AuthMiddleware, RequireAuth, he]
  · constructor <;> simp [AuthMiddleware, RequireAuth, htk, he]
  · refine ⟨{ r with ctx := ctxWithValue (ctxWithValue r.ctx .tokenKey (.tok token)) .uidKey (.str token.uid) }, ?_, ?_, ?_, ?_, rfl⟩
    · simp [AuthMiddleware, htk, hv]
    · simp [RequireAuth, htk, hv]
    · simp [GetUIDFromContext, ctxValue, ctxWithValue, List.find?]
    · simp [GetTokenFromContext, ctxValue, ctxWithValue, List.find?]

/-- C1 witness: with a verifier accepting exactly `"valid-token"`, a request
with header `Bearer valid-token` reaches the downstream handler with UID
`user-1` in context; `Bearer bad-token` and a malformed header are rejected
with a 401 and the handler is never called. -/
theorem C1_auth_wrapper_witness :
    (∃ r2, AuthMiddleware exampleVerifier ⟨[("Authorization", "Bearer valid-token")], []⟩ =
        { errorWritten := none, nextCalls := [r2] } ∧
      RequireAuth exampleVerifier ⟨[("Authorization", "Bearer valid-token")], []⟩ =
        { errorWritten := none, nextCalls := [r2] } ∧
      GetUIDFromContext r2.ctx = .ok "user-1" ∧
      GetTokenFromContext r2.ctx = .ok { uid := "user-1" } ∧
      r2.headers = [("Authorization", "Bearer valid-token")]) ∧
    AuthMiddleware exampleVerifier ⟨[("Authorization", "Bearer bad-token")], []⟩ =
      { errorWritten := some (401, "Invalid token: error verifying ID token: invalid token"),
        nextCalls := [] } ∧
    AuthMiddleware exampleVerifier ⟨[("Authorization", "Token abc")], []⟩ =
      { errorWritten :=
          some (401, "authorization header must be in the format \x27Bearer \x7btoken\x7d\x27"),
        nextCalls := [] } :=
  ⟨(C1_auth_wrapper exampleVerifier _).2.2 "valid-token" { uid := "user-1" }
      (by decide) (by decide),
   ((C1_auth_wrapper exampleVerifier _).2.1 "bad-token"
      "error verifying ID token: invalid token" (by decide) (by decide)).1,
   ((C1_auth_wrapper exampleVerifier _).1 _ (by decide)).1⟩

/-- C2: bearer-token extraction returns the suffix after the literal prefix
`"Bearer "` when the `Authorization` header has that shape, and fails with the
missing-header error when the header is absent (or empty) and with the
malformed-header error for any other shape. -/
theorem C2_bearer_extraction (r : Request) :
    (headerGet r.headers "Authorization" = "" →
      GetTokenFromRequest r = .error "authorization header is required") ∧
    (∀ t, headerGet r.headers "Authorization" = "Bearer " ++ t →
      GetTokenFromRequest r = .ok t) ∧
    (headerGet r.headers "Authorization" ≠ "" →
      goHasPfx (headerGet r.headers "Authorization") "Bearer " = false →
      GetTokenFromRequest r =
        .error "authorization header must be in the format \x27Bearer \x7btoken\x7d\x27") := by
  refine ⟨fun h => ?_, fun t ht => ?_, fun h1 h2 => ?_⟩
  · simp [GetTokenFromRequest, h]
  · have hne : ("Bearer " ++ t : String) ≠ "" := by
      intro hc
      have h2 := congrArg String.data hc
      simp [String.data_append] at h2
    have hpfx : goHasPfx ("Bearer " ++ t) "Bearer " = true := by
      simp only [goHasPfx, String.data_append]
      rw [List.isPrefixOf_iff_prefix]
      exact List.prefix_append _ _
    have htrim : goTrimPfx ("Bearer " ++ t) "Bearer " = t := by
      simp only [goTrimPfx, hpfx, if_true]
      apply String.ext
      simp only [String.data_append]
      exact List.drop_left _ _
    simp [GetTokenFromRequest, ht, hne, hpfx, htrim]
  · simp [GetTokenFromRequest, h1, h2]

/-- C2 witness: header `Bearer abc123` yields token `abc123`; `Token abc123`
fails as malformed; a request without the header fails as missing. -/
theorem C2_bearer_extraction_witness :
    GetTokenFromRequest ⟨[("Authorization", "Bearer abc123")], []⟩ = .ok "abc123" ∧
    GetTokenFromRequest ⟨[("Authorization", "Token abc123")], []⟩ =
      .error "authorization header must be in the format \x27Bearer \x7btoken\x7d\x27" ∧
    GetTokenFromRequest ⟨[], []⟩ = .error "authorization header is required" :=
  ⟨(C2_bearer_extraction _).2.1 "abc123" (by decide),
   (C2_bearer_extraction _).2.2 (by decide) (by decide),
   (C2_bearer_extraction _).1 (by decide)⟩

/-- C3 counterexample: the metadata round trip does NOT preserve key case —
uploading `{"user":"john"}` and fetching returns `{"User":"john"}`, because
`http.Header.Add` stores the header key in canonical MIME form. -/
theorem C3_metadata_case_counterexample :
    metadataRoundTrip [("user", "john")] ≠ [("user", "john")] ∧
    metadataRoundTrip [("user", "john")] = [("User", "john")] := by
  constructor <;> decide

/-- C3 amended: for metadata whose keys consist of valid header-field bytes
and are pairwise distinct under MIME canonicalization, the round trip returns
exactly the original entries with values unchanged and each key passed through
MIME canonicalization (first letter and every letter after a hyphen
upper-cased, the rest lower-cased); the round trip is the identity exactly on
already-canonical keys. Keys that collide under canonicalization are merged by
`Header.Add` into a single header, of which `GetObject` keeps one entry. -/
theorem C3_metadata_roundtrip_amended (md : List (String × String))
    (hvalid : ∀ kv ∈ md, kv.1.data.all validHeaderFieldChar = true)
    (hnodup : (md.map (fun kv => CanonicalMIMEHeaderKey kv.1)).Nodup) :
    metadataRoundTrip md = md.map (fun kv => (CanonicalMIMEHeaderKey kv.1, kv.2)) ∧
    ((∀ kv ∈ md, CanonicalMIMEHeaderKey kv.1 = kv.1) → metadataRoundTrip md = md) ∧
    (metadataRoundTrip [("user", "john"), ("USER", "jane")]).map Prod.fst = ["User"] := by
  have hnodup2 : (md.map (fun kv =>
      CanonicalMIMEHeaderKey ("X-Metadata-" ++ kv.1))).Nodup := by
    have hmapeq : md.map (fun kv => CanonicalMIMEHeaderKey ("X-Metadata-" ++ kv.1)) =
        (md.map (fun kv => CanonicalMIMEHeaderKey kv.1)).map (fun s => "X-Metadata-" ++ s) := by
      rw [List.map_map]
      apply List.map_congr_left
      intro kv hkv
      have hk := hvalid kv hkv
      simp only [Function.comp]
      rw [canonicalMIME_append_pfx kv.1 hk]
      congr 1
      unfold CanonicalMIMEHeaderKey
      rw [if_pos hk]
    rw [hmapeq]
    refine List.Nodup.map ?_ hnodup
    intro a b hab
    apply String.ext
    have hd := congrArg String.data hab
    simp only [String.data_append] at hd
    exact List.append_cancel_left hd
  have hupload : uploadMetadataHeaders md =
      md.map (fun kv => (CanonicalMIMEHeaderKey ("X-Metadata-" ++ kv.1), [kv.2])) := by
    have h := uploadFold md [] (by simp) hnodup2
    simpa [uploadMetadataHeaders] using h
  have main : metadataRoundTrip md = md.map (fun kv => (CanonicalMIMEHeaderKey kv.1, kv.2)) := by
    rw [metadataRoundTrip, hupload]
    exact extract_of_canonical md hvalid
  refine ⟨main, fun hfix => ?_, by decide⟩
  rw [main]
  have hid : md.map (fun kv => (CanonicalMIMEHeaderKey kv.1, kv.2)) = md.map id := by
    apply List.map_congr_left
    intro kv hkv
    simp [hfix kv hkv]
  rw [hid, List.map_id]

/-- C3 amended witness: the round trip at `{"user":"john"}` (a single valid,
collision-free key) returns the canonicalized entry `{"User":"john"}`. -/
theorem C3_metadata_roundtrip_amended_witness :
    metadataRoundTrip [("user", "john")] = [("User", "john")] :=
  ((C3_metadata_roundtrip_amended [("user", "john")] (by decide) (by decide)).1).trans
    (by decide)

/-- C4 counterexample: the KV URLs are NOT built by URL-escaping the namespace
segment — a namespace containing a space is interpolated verbatim, so every
operation's URL differs from the spec-modelled URL that escapes the namespace
segment individually. -/
theorem C4_kv_url_escaping_counterexample :
    ListKeysURL (NewConfig "tok" "acct") "my ns" "" ≠
      ListKeysURLSpec (NewConfig "tok" "acct") "my ns" "" ∧
    WriteValueURL (NewConfig "tok" "acct") "my ns" "k" none ≠
      WriteValueURLSpec (NewConfig "tok" "acct") "my ns" "k" none ∧
    ReadValueURL (NewConfig "tok" "acct") "my ns" "k" ≠
      ReadValueURLSpec (NewConfig "tok" "acct") "my ns" "k" ∧
    DeleteValueURL (NewConfig "tok" "acct") "my ns" "k" ≠
      DeleteValueURLSpec (NewConfig "tok" "acct") "my ns" "k" := by decide

/-- C4 amended: the key segment is path-escaped (and so can contain no raw
`/` or `?`) and the optional list prefix is percent-escaped as a query
parameter (no raw `&` or `?`); the namespace segment however is interpolated
verbatim, unescaped, into each operation's URL; all three value-operation
URLs coincide. -/
theorem C4_kv_url_escaping_amended (cfg : CloudflareConfig) (ns key pfx : String) (ttl : Int) :
    (WriteValueURL cfg ns key none = ReadValueURL cfg ns key ∧
     DeleteValueURL cfg ns key = ReadValueURL cfg ns key ∧
     WriteValueURL cfg ns key (some ttl) =
       ReadValueURL cfg ns key ++ "?expiration_ttl=" ++ toString ttl) ∧
    (pathEscape key).data <:+ (ReadValueURL cfg ns key).data ∧
    ns.data <:+: (ReadValueURL cfg ns key).data ∧
    ns.data <:+: (ListKeysURL cfg ns pfx).data ∧
    (pfx ≠ "" → (queryEscape pfx).data <:+ (ListKeysURL cfg ns pfx).data) ∧
    (Char.ofNat 47 ∉ (pathEscape key).data ∧ Char.ofNat 63 ∉ (pathEscape key).data ∧
     Char.ofNat 38 ∉ (queryEscape pfx).data ∧ Char.ofNat 63 ∉ (queryEscape pfx).data) := by
  refine ⟨⟨rfl, rfl, rfl⟩, ?_, ?_, ?_, ?_, ?_, ?_, ?_, ?_⟩
  · exact ⟨(cfg.BaseURL ++ "/accounts/" ++ cfg.AccountID ++ "/storage/kv/namespaces/" ++
      ns ++ "/values/").data, by simp [ReadValueURL, String.data_append]⟩
  · exact ⟨(cfg.BaseURL ++ "/accounts/" ++ cfg.AccountID ++ "/storage/kv/namespaces/").data,
      ("/values/" ++ pathEscape key).data, by simp [ReadValueURL, String.data_append]⟩
  · by_cases hp : pfx = ""
    · exact ⟨(cfg.BaseURL ++ "/accounts/" ++ cfg.AccountID ++ "/storage/kv/namespaces/").data,
        ("/keys" : String).data, by simp [ListKeysURL, hp, String.data_append]⟩
    · exact ⟨(cfg.BaseURL ++ "/accounts/" ++ cfg.AccountID ++ "/storage/kv/namespaces/").data,
        ("/keys" ++ "?prefix=" ++ queryEscape pfx).data,
        by simp [ListKeysURL, hp, String.data_append]⟩
  · intro hp
    exact ⟨(cfg.BaseURL ++ "/accounts/" ++ cfg.AccountID ++ "/storage/kv/namespaces/" ++
      ns ++ "/keys" ++ "?prefix=").data, by simp [ListKeysURL, hp, String.data_append]⟩
  · exact not_mem_urlEscape _ _ (by decide) (by decide) (by decide) (by decide) key
  · exact not_mem_urlEscape _ _ (by decide) (by decide) (by decide) (by decide) key
  · exact not_mem_urlEscape _ _ (by decide) (by decide) (by decide) (by decide) pfx
  · exact not_mem_urlEscape _ _ (by decide) (by decide) (by decide) (by decide) pfx

/-- C4 amended witness: at a concrete config, the escaped list prefix is a
suffix of the `ListKeys` URL, and a key containing a slash escapes to a
segment with no raw slash. -/
theorem C4_kv_url_escaping_amended_witness :
    (queryEscape "app:").data <:+ (ListKeysURL (NewConfig "tok" "acct") "ns1" "app:").data ∧
    Char.ofNat 47 ∉ (pathEscape "a/b c").data :=
  ⟨(C4_kv_url_escaping_amended (NewConfig "tok" "acct") "ns1" "a/b c" "app:" 60).2.2.2.2.1
      (by decide),
   (C4_kv_url_escaping_amended (NewConfig "tok" "acct") "ns1" "a/b c" "app:" 60).2.2.2.2.2.1⟩

/-- C5 counterexample: the client constructors mutate the shared config — on a
config whose base URL is empty, each constructor assigns the default base URL
through the shared pointer, so the config after construction differs from the
config before. -/
theorem C5_config_mutation_counterexample :
    (NewD1Client { APIToken := "tok", AccountID := "acct", BaseURL := "", Timeout := 0 }).1 ≠
      { APIToken := "tok", AccountID := "acct", BaseURL := "", Timeout := 0 } ∧
    (NewR2Client { APIToken := "tok", AccountID := "acct", BaseURL := "", Timeout := 0 }).1 ≠
      { APIToken := "tok", AccountID := "acct", BaseURL := "", Timeout := 0 } ∧
    (NewKVClient { APIToken := "tok", AccountID := "acct", BaseURL := "", Timeout := 0 }).1 ≠
      { APIToken := "tok", AccountID := "acct", BaseURL := "", Timeout := 0 } := by decide

/-- C5 amended: the constructors never touch the API token, account ID or
timeout; when the base URL is non-empty the shared config is left entirely
unchanged (by each constructor and by `NewStorage`); only an empty base URL
is mutated, and it is set to the default. -/
theorem C5_config_mutation_amended (config : CloudflareConfig) :
    ((NewD1Client config).1.APIToken = config.APIToken ∧
     (NewD1Client config).1.AccountID = config.AccountID ∧
     (NewD1Client config).1.Timeout = config.Timeout) ∧
    ((NewR2Client config).1.APIToken = config.APIToken ∧
     (NewR2Client config).1.AccountID = config.AccountID ∧
     (NewR2Client config).1.Timeout = config.Timeout) ∧
    ((NewKVClient config).1.APIToken = config.APIToken ∧
     (NewKVClient config).1.AccountID = config.AccountID ∧
     (NewKVClient config).1.Timeout = config.Timeout) ∧
    (config.BaseURL ≠ "" →
      (NewD1Client config).1 = config ∧ (NewR2Client config).1 = config ∧
      (NewKVClient config).1 = config ∧ (NewStorage config).1 = config) ∧
    (config.BaseURL = "" →
      (NewD1Client config).1.BaseURL = defaultBaseURL ∧
      (NewR2Client config).1.BaseURL = defaultBaseURL ∧
      (NewKVClient config).1.BaseURL = defaultBaseURL) := by
  by_cases h : config.BaseURL = "" <;>
    simp [NewD1Client, NewR2Client, NewKVClient, NewStorage, h]

/-- C5 amended witness: a config built by `NewConfig` (non-empty base URL)
passes through `NewD1Client` unchanged; a config with an empty base URL has it
set to the default. -/
theorem C5_config_mutation_amended_witness :
    (NewD1Client (NewConfig "t" "a")).1 = NewConfig "t" "a" ∧
    (NewD1Client { APIToken := "t", AccountID := "a", BaseURL := "", Timeout := 0 }).1.BaseURL =
      defaultBaseURL :=
  ⟨((C5_config_mutation_amended (NewConfig "t" "a")).2.2.2.1 (by decide)).1,
   ((C5_config_mutation_amended
      { APIToken := "t", AccountID := "a", BaseURL := "", Timeout := 0 }).2.2.2.2 (by decide)).1⟩

/-- C6 counterexample: the library itself does read environment variables —
`NewStorageFromEnv` lives in the `cloudflare` library package and its result
differs between two environments that differ only in `CLOUDFLARE_API_TOKEN`,
refuting the two-run statement for library functions. -/
theorem C6_env_read_counterexample : NewStorageFromEnv envNone ≠ NewStorageFromEnv envToken := by
  decide

/-- C6 amended: environment lookup in the library is confined to
`NewStorageFromEnv`, which depends on the environment only through
`CLOUDFLARE_API_TOKEN` and `CLOUDFLARE_ACCOUNT_ID`: two runs under
environments agreeing on those two variables behave identically. -/
theorem C6_env_noninterference_amended (env env2 : Env)
    (htok : env "CLOUDFLARE_API_TOKEN" = env2 "CLOUDFLARE_API_TOKEN")
    (hacct : env "CLOUDFLARE_ACCOUNT_ID" = env2 "CLOUDFLARE_ACCOUNT_ID") :
    NewStorageFromEnv env = NewStorageFromEnv env2 := by
  simp [NewStorageFromEnv, htok, hacct]

/-- C6 amended witness: an empty environment and one setting only an unrelated
variable produce identical storage handles. -/
theorem C6_env_noninterference_amended_witness :
    NewStorageFromEnv envNone = NewStorageFromEnv envOther :=
  C6_env_noninterference_amended envNone envOther (by decide) (by decide)

/-- C7: an `ExecuteQuery` whose HTTP response is a 200 with a successful
envelope fails with the empty-result error when the envelope's result list is
empty, and returns the first element when it is non-empty. -/
theorem C7_empty_result (sql : String) (params : List JsonVal)
    (transport : List (String × JsonVal) → Except String D1HTTPResp)
    (resp : D1HTTPResp) (response : D1Response)
    (ht : transport (d1RequestBody sql params) = .ok resp)
    (hs : resp.status = 200) (hd : resp.decoded = some response)
    (hsucc : response.success = true) :
    (response.result = [] → ExecuteQuery sql params transport = .error .emptyResult) ∧
    (∀ item rest, response.result = item :: rest →
      ExecuteQuery sql params transport = .ok item) := by
  constructor
  · intro hres
    simp [ExecuteQuery, ht, d1HandleResponse, hs, hd, hsucc, hres]
  · intro item rest hres
    simp [ExecuteQuery, ht, d1HandleResponse, hs, hd, hsucc, hres]

/-- C7 witness: a successful 200 response with an empty result array fails
with the empty-result error; with one item, that item is returned. -/
theorem C7_empty_result_witness :
    ExecuteQuery "SELECT 1" [] (fun _ => .ok d1RespEmpty) = .error .emptyResult ∧
    ExecuteQuery "SELECT 1" [] (fun _ => .ok d1RespOne) = .ok exampleItem :=
  ⟨(C7_empty_result "SELECT 1" [] _ d1RespEmpty d1EnvelopeEmpty rfl rfl rfl rfl).1 rfl,
   (C7_empty_result "SELECT 1" [] _ d1RespOne d1EnvelopeOne rfl rfl rfl rfl).2
      exampleItem [] rfl⟩

/-- C8: a KV `ReadValue` whose HTTP response has status 404 fails with the
distinct not-found error carrying the key; the not-found error arises only
from a 404 (never from a transport failure or another status), and it is a
different constructor from every other failure kind. -/
theorem C8_read_value_not_found (key : String) (tr : Except String KVReadResp) :
    (∀ resp, tr = .ok resp → resp.status = 404 →
      ReadValue key tr = .error (.notFound ("key not found: " ++ key))) ∧
    (∀ resp k, tr = .ok resp → ReadValue key tr = .error (.notFound k) →
      resp.status = 404) ∧
    (∀ m k, ReadValue key (.error m) ≠ .error (.notFound k)) ∧
    (∀ k m c b, KVReadErr.notFound k ≠ .transport m ∧
      KVReadErr.notFound k ≠ .unexpectedStatus c ∧ KVReadErr.notFound k ≠ .readBody b) := by
  refine ⟨fun resp htr hst => ?_, fun resp k htr h => ?_, fun m k => by simp [ReadValue],
    fun k m c b => by simp⟩
  · simp [ReadValue, htr, hst]
  · by_cases h404 : resp.status = 404
    · exact h404
    · exfalso
      by_cases h200 : resp.status = 200
      · simp [ReadValue, htr, h404, h200] at h
        rcases hb : resp.bodyRead with e | bytes <;> simp [hb] at h
      · simp [ReadValue, htr, h404, h200] at h

/-- C8 witness: a 404 response yields exactly the not-found error, and that
error differs from the transport, unexpected-status and body-read errors. -/
theorem C8_read_value_not_found_witness :
    ReadValue "k1" (.ok { status := 404, bodyRead := .ok [] }) =
      .error (.notFound ("key not found: " ++ "k1")) ∧
    (KVReadErr.notFound "k1" ≠ .transport "boom" ∧
     KVReadErr.notFound "k1" ≠ .unexpectedStatus 500 ∧
     KVReadErr.notFound "k1" ≠ .readBody "boom") :=
  ⟨(C8_read_value_not_found "k1" (.ok { status := 404, bodyRead := .ok [] })).1 _ rfl rfl,
   (C8_read_value_not_found "k1" (.ok { status := 404, bodyRead := .ok [] })).2.2.2
      "k1" "boom" 500 "boom"⟩

/-- C9: the D1 request body carries the `params` field exactly when the
positional parameter list is non-empty; a non-200 response fails with the
status (and body), and a 200 response with `success:false` fails with the
failure message, which appends the first server-reported error message when
one is present. -/
theorem C9_query_body_and_failures (sql : String) (params : List JsonVal)
    (transport : List (String × JsonVal) → Except String D1HTTPResp) :
    (((d1RequestBody sql params).find? (fun f => f.1 = "params")).isSome ↔ params ≠ []) ∧
    (∀ resp, transport (d1RequestBody sql params) = .ok resp → resp.status ≠ 200 →
      ExecuteQuery sql params transport = .error (.unexpectedStatus resp.status resp.body)) ∧
    (∀ resp response, transport (d1RequestBody sql params) = .ok resp →
      resp.status = 200 → resp.decoded = some response → response.success = false →
      ExecuteQuery sql params transport = .error (.apiError (d1FailureMsg response.errors))) ∧
    (∀ e rest, d1FailureMsg (e :: rest) = "request was not successful: " ++ e.message) := by
  refine ⟨?_, fun resp ht hs => ?_, fun resp response ht hs hd hsucc => ?_, fun e rest => rfl⟩
  · cases params <;> simp [d1RequestBody, List.find?]
  · simp [ExecuteQuery, ht, d1HandleResponse, hs]
  · simp [ExecuteQuery, ht, d1HandleResponse, hs, hd, hsucc]

/-- C9 witness: a 500 response fails carrying status and body; a 200 response
with `success:false` and one reported error fails with a message carrying that
first error message. -/
theorem C9_query_body_and_failures_witness :
    ExecuteQuery "SELECT 1" [] (fun _ => .ok d1Resp500) =
      .error (.unexpectedStatus 500 "oops") ∧
    ExecuteQuery "SELECT 1" [] (fun _ => .ok d1RespFail) =
      .error (.apiError (d1FailureMsg [exampleD1ErrorObj])) ∧
    d1FailureMsg [exampleD1ErrorObj] = "request was not successful: bad sql" :=
  ⟨(C9_query_body_and_failures "SELECT 1" [] _).2.1 d1Resp500 rfl (by decide),
   (C9_query_body_and_failures "SELECT 1" [] _).2.2.1 d1RespFail _ rfl rfl rfl rfl,
   ((C9_query_body_and_failures "SELECT 1" [] (fun _ => .ok d1RespFail)).2.2.2
      exampleD1ErrorObj []).trans (by decide)⟩

/-- C10: R2 `DeleteObject` reports success for every 200 response without
decoding the body — its result is independent of the decoded envelope and it
returns success even on `success:false`, unlike the KV mutating operations
`WriteValue` and `DeleteValue`, which fail on the same envelope. -/
theorem C10_delete_object_ignores_envelope (st : Nat) (d1 d2 : Option SuccessEnvelope) :
    DeleteObject (.ok { status := st, decoded := d1 }) =
      DeleteObject (.ok { status := st, decoded := d2 }) ∧
    (st = 200 → DeleteObject (.ok { status := st, decoded := d1 }) = .ok ()) ∧
    (DeleteObject (.ok { status := 200, decoded := some { success := false } }) = .ok () ∧
     DeleteValue (.ok { status := 200, decoded := some { success := false } }) =
       .error .apiNotSuccessful ∧
     WriteValue (.ok { status := 200, decoded := some { success := false } }) =
       .error .apiNotSuccessful) := by
  refine ⟨by simp [DeleteObject], fun h => by simp [DeleteObject, h], by decide⟩

/-- C10 witness: at status 200 with a `success:false` envelope, `DeleteObject`
succeeds while `DeleteValue` fails. -/
theorem C10_delete_object_ignores_envelope_witness :
    DeleteObject (.ok { status := 200, decoded := some { success := false } }) = .ok () ∧
    DeleteValue (.ok { status := 200, decoded := some { success := false } }) =
      .error .apiNotSuccessful :=
  ⟨(C10_delete_object_ignores_envelope 200 (some { success := false }) none).2.1 rfl,
   (C10_delete_object_ignores_envelope 200 (some { success := false }) none).2.2.2.1⟩
